import Mathlib

/-!
Verification development for the OllamaDeepResearch repository
(src/main.py, src/request.py).

The module src/main.py defines a FastAPI application together with the
helper functions generate_initial_query, generate_refinement_query,
identify_knowledge_gaps, summarize_results and the controller function
deep_research.  External collaborators (the OpenAI chat completion service
and the Tavily web-search service) are modelled as oracles; console output
(print, streamlit) is not modelled.  Python run-time errors that matter to
the development (NameError on an unbound global name) are modelled
explicitly: a function body resolves each referenced global name against
the list of names actually bound by executing src/main.py top to bottom.
-/

namespace OllamaDeepResearch

/-- Run-time errors of the embedded Python fragment: a NameError carries the
unbound name; other carries any other exception text (for example a failure
raised by an external collaborator). -/
inductive PyError
  | nameError (n : String)
  | other (msg : String)
deriving Repr, DecidableEq

/-- Observable external effects of src/main.py: a Tavily web search with its
query, an OpenAI chat-completion call with its prompt, and a time.sleep of
the given number of seconds.  src/main.py never calls time.sleep, but the
event is part of the observation language so that its absence is statable. -/
inductive Event
  | tavilySearch (query : String)
  | openaiCall (prompt : String)
  | sleep (seconds : Nat)
deriving Repr, DecidableEq

/-- One web-search result record as used by main.py: a loosely-typed dict in
which each of the keys "title", "url", "content" may be missing (main.py reads
them with dict.get and a default). -/
structure PySource where
  title : Option String
  url : Option String
  content : Option String
deriving Repr, DecidableEq

/-- The external collaborators of src/main.py.  tavilyResults q models
tavily_client.search(q): an exception (Except.error) propagates, and on
success the value of the key "results" of the response dict is returned
(none models a response without that key).  llm p models a successful
openai.chat.completions.create call on prompt p, returning
response.choices[0].message.content. -/
structure Collaborators where
  tavilyResults : String → Except PyError (Option (List PySource))
  llm : String → String

/-- Computations of the embedded fragment: they may raise a PyError and they
record the list of external calls made, in order. -/
abbrev PyM (α : Type) : Type := ExceptT PyError (StateM (List Event)) α

/-- Run a computation from an empty event trace, returning the outcome and
the recorded trace. -/
def runPy {α : Type} (x : PyM α) : Except PyError α × List Event :=
  (ExceptT.run x).run []

/-- Record one external call. -/
def logEvent (e : Event) : PyM Unit :=
  ExceptT.lift (modify (fun t => t ++ [e]))

/-- Names bound at module level by executing src/main.py from the top:
the imports (lines 1-8), the client handles (lines 14-15), the
configuration constants (lines 19-24), the app object (line 27), the two
pydantic models (lines 30, 36) and the five functions (lines 41, 64, 90,
116, 151).  Module execution after line 189 stops at line 192 with a
NameError on st (streamlit is never imported), so no later name is ever
bound.  In particular the names generate_query, summarize_sources,
reflect_on_summary, finalize_summary, combined_summaries, stream and st are
bound nowhere. -/
def mainModuleNames : List String :=
  ["FastAPI", "HTTPException", "TavilyClient", "openai", "load_dotenv",
   "os", "List", "Dict", "Any", "Optional", "time", "BaseModel", "Field",
   "tavily_client", "QUERY_GENERATION_MODEL", "DEEP_RESEARCH_MODEL",
   "MAX_QUERY_LENGTH", "MAX_RETRIES", "DELAY_BETWEEN_REQUESTS",
   "MAX_ITERATIONS", "app", "ResearchRequest", "ResearchResponse",
   "generate_initial_query", "generate_refinement_query",
   "identify_knowledge_gaps", "summarize_results", "deep_research"]

/-- The Python builtin names referenced inside the function bodies of
src/main.py. -/
def pythonBuiltins : List String :=
  ["print", "range", "enumerate", "len", "str"]

/-- Resolution of a global name inside a function body of main.py (the
bodies create no closures, so the lookup order is locals, then module
globals, then builtins): a name that is neither a module global nor a
builtin raises NameError. -/
def refName (n : String) : PyM Unit :=
  if n ∈ mainModuleNames ∨ n ∈ pythonBuiltins then pure ()
  else throw (PyError.nameError n)

/-- A use (a call or a plain read) of a global name at a site that expects a
value of type α; for a call, _arg is the tuple of already-evaluated local
arguments the call would receive (never consumed: the callee name is
resolved before any call happens), and a plain read passes ().  The name is
resolved first, exactly as Python does; every
name this development applies useGlobal to is bound neither at module level
nor among the builtins (each such fact is decidable from mainModuleNames and
pythonBuiltins), so resolution raises NameError and no value of type α is
ever produced.  If useGlobal were ever applied to a bound name the visible
outcome would be the distinct PyError.other error below, so no theorem in
this file could mistake that misuse for a NameError. -/
def useGlobal (α : Type) {β : Type} (n : String) (_arg : β) : PyM α :=
  if n ∈ mainModuleNames ∨ n ∈ pythonBuiltins then
    throw (PyError.other ("useGlobal applied to a bound name: " ++ n))
  else throw (PyError.nameError n)

/-- Configuration constant of main.py line 21. -/
def MAX_QUERY_LENGTH : Nat := 400

/-- Configuration constant of main.py line 22, commented in the source as the
number of retries for web search; no code in the module ever reads it. -/
def MAX_RETRIES : Nat := 3

/-- Configuration constant of main.py line 23, commented in the source as the
delay in seconds between API calls; no code in the module ever reads it. -/
def DELAY_BETWEEN_REQUESTS : Nat := 2

/-- Configuration constant of main.py line 24, commented in the source as the
number of research/refinement iterations; no code in the module ever reads
it. -/
def MAX_ITERATIONS : Nat := 3

/-- The ASCII whitespace characters removed by the Python str.strip method
with no argument (space, tab, newline, carriage return, vertical tab, form
feed).  The inputs of this development are ASCII, so the additional Unicode
whitespace Python would also strip never occurs. -/
def pyWhitespace : List Char :=
  [' ', '\t', '\n', '\x0d', '\x0b', '\x0c']

/-- Python str.strip(chars): remove from both ends every character belonging
to the given set. -/
def pyStripChars (chars : List Char) (s : String) : String :=
  String.mk (((s.data.dropWhile (fun c => c ∈ chars)).reverse.dropWhile
      (fun c => c ∈ chars)).reverse)

/-- Python str.strip() with no argument. -/
def pyStrip (s : String) : String :=
  pyStripChars pyWhitespace s

/-- Python string slicing s[:n]: the first n characters (code points) of s,
or all of s when it is shorter. -/
def pyTake (s : String) (n : Nat) : String :=
  String.mk (s.data.take n)

/-- Splitting a character list at every occurrence of the separator c,
keeping empty segments; the empty list yields one empty segment.  This is
the list-level semantics of the Python str.split method with a one-character
separator, written by structural recursion so that concrete instances are
computed by the kernel. -/
def splitCharList (c : Char) : List Char → List (List Char)
  | [] => [[]]
  | x :: xs =>
    let r := splitCharList c xs
    if x = c then [] :: r
    else
      match r with
      | [] => [[x]]
      | y :: ys => (x :: y) :: ys

/-- Python s.split with the one-character separator newline, as used at
main.py line 114: every occurrence splits, empty segments are kept, and the
empty string yields one empty segment. -/
def pySplitLines (s : String) : List String :=
  (splitCharList '\n' s.data).map String.mk

/-- A successful openai.chat.completions.create call on one user message:
the call is recorded and the collaborator returns
response.choices[0].message.content. -/
def openai_chat (C : Collaborators) (prompt : String) : PyM String := do
  logEvent (Event.openaiCall prompt)
  pure (C.llm prompt)

/-- tavily_client.search(query): the call is recorded; an exception from the
collaborator propagates (main.py wraps the call in no try block); on success
the value of the key "results" of the response dict is returned (none when
the key is missing). -/
def tavily_search (C : Collaborators) (query : String) :
    PyM (Option (List PySource)) := do
  logEvent (Event.tavilySearch query)
  match C.tavilyResults query with
  | Except.ok r => pure r
  | Except.error e => throw e

/-- The prompt built by identify_knowledge_gaps (main.py lines 92-106), a
triple-quoted f-string transcribed with its literal newlines and leading
four-space indentation. -/
def gapsPrompt (domain summary : String) : String :=
  "\n    Analyze this market research summary about " ++ domain ++
  " and identify the 3 most important\n    knowledge gaps or unanswered questions that would improve the research quality.\n    \n    Focus on:\n    - Missing data points\n    - Unclear trends\n    - Lack of specific examples\n    - Areas needing more depth\n    \n    Summary:\n    "
  ++ summary ++
  "\n    \n    Return only a bulleted list of the key gaps, nothing else.\n    "

/-- The list comprehension of main.py line 114 applied to the response text:
split on the newline character, keep the lines whose strip() is non-empty,
and map each kept line through strip(hyphen-space) followed by strip(). -/
def parseGapLines (content : String) : List String :=
  ((pySplitLines content).filter (fun line => pyStrip line ≠ "")).map
    (fun line => pyStrip (pyStripChars ['-', ' '] line))

/-- identify_knowledge_gaps (main.py lines 90-114): build the prompt, make
one LLM call, and parse its response text with parseGapLines. -/
def identify_knowledge_gaps (C : Collaborators) (domain summary : String) :
    PyM (List String) := do
  let prompt := gapsPrompt domain summary
  let content ← openai_chat C prompt
  pure (parseGapLines content)

/-- One entry of the digest built by summarize_results (main.py lines
119-121): the three adjacent f-string literals for source number i+1, with
each missing dict key replaced by its default via dict.get, and the content
sliced to its first 2000 characters. -/
def sourceEntry (i : Nat) (s : PySource) : String :=
  "Source " ++ toString (i + 1) ++ ": " ++ s.title.getD "Untitled" ++ "\n" ++
  "URL: " ++ s.url.getD "No URL" ++ "\n" ++
  "Content: " ++ pyTake (s.content.getD "No content") 2000 ++ "..."

/-- combined_text of summarize_results (main.py lines 118-123): the entries
for the enumerated sources joined by a blank line. -/
def combinedText (sources : List PySource) : String :=
  String.intercalate "\n\n" (sources.enum.map (fun p => sourceEntry p.1 p.2))

/-- metrics_context of summarize_results (main.py line 125): Python
truthiness makes both None and the empty list produce the empty string. -/
def metricsContext (metrics : Option (List String)) : String :=
  match metrics with
  | some ms =>
      if ms.isEmpty then "" else " focusing on " ++ String.intercalate ", " ms
  | none => ""

/-- The prompt built (and then never used) by summarize_results (main.py
lines 127-139), transcribed with its literal newlines and indentation. -/
def summaryPrompt (domain metrics_context combined_text : String) : String :=
  "\n    Synthesize a comprehensive summary from these search results about "
  ++ domain ++ metrics_context ++ ":\n\n    " ++ combined_text ++
  "\n\n    Include:\n    1. Key findings and statistics\n    2. Trends and patterns\n    3. Conflicting information\n    4. Notable missing information\n\n    Organize the summary clearly with headings.\n    "

/-- summarize_results (main.py lines 116-149).  The digest combined_text,
metrics_context and prompt are built as in the source; the
openai.chat.completions.create call at line 141 builds its message from the
name combined_summaries, which is bound neither locally nor at module level,
so evaluating the message raises NameError before the API call is made.  The
remaining statements (lines 146-149: reassign response to the empty string,
iterate over the unbound name stream accumulating chunk texts, return the
stripped accumulation) are transcribed but unreachable. -/
def summarize_results (C : Collaborators) (sources : List PySource)
    (domain : String) (metrics : Option (List String)) : PyM String := do
  let combined_text := combinedText sources
  let metrics_context := metricsContext metrics
  let _prompt := summaryPrompt domain metrics_context combined_text
  let combined_summaries ← useGlobal String "combined_summaries" ()
  let _response ← openai_chat C
    ("Generate a detailed research report based on the following refined summaries, including key findings and recommendations:\n\n"
      ++ combined_summaries)
  let mut response := ""
  let chunks ← useGlobal (List String) "stream" ()
  for chunk in chunks do
    response := response ++ chunk
  return pyStrip response

/-- The dict literal returned by deep_research (main.py lines 183-189).  Its
keys are query, sources, summary, refined_summary and detailed_report; it
has no all_sources key, no iterations key and no final_analysis key. -/
structure DeepResearchResult where
  query : String
  sources : List PySource
  summary : String
  refined_summary : String
  detailed_report : String
deriving Repr

/-- deep_research (main.py lines 151-189).  The first statement that binds a
value is the list comprehension at line 155, queries =
[generate_query(topic) for _ in range(3)]; the name generate_query is bound
nowhere in the module (the module defines generate_initial_query and
generate_refinement_query instead), so its first evaluation raises NameError
before any web search.  The loop body (search, the unbound names
summarize_sources and reflect_on_summary, the append) and the final unbound
call finalize_summary are transcribed but unreachable; the mutable bindings
before the loop model Python locals that the loop body would assign on every
pass before the later reads (the initial values are never read, since the
loop would run exactly three times whenever it is reached). -/
def deep_research (C : Collaborators) (topic : String) :
    PyM DeepResearchResult := do
  let mut refined_summaries : List String := []
  let queries ← (List.range 3).mapM
    (fun _ => useGlobal String "generate_query" topic)
  let mut lastQuery := ""
  let mut lastSources : List PySource := []
  let mut lastSummary := ""
  let mut lastRefined := ""
  for p in queries.enum do
    let query := p.2
    let response ← tavily_search C query
    let sources := response.getD []
    let summary ← useGlobal String "summarize_sources" sources
    let refined_summary ← useGlobal String "reflect_on_summary" summary
    refined_summaries := refined_summaries ++ [refined_summary]
    lastQuery := query
    lastSources := sources
    lastSummary := summary
    lastRefined := refined_summary
  let detailed_report ← useGlobal String "finalize_summary" refined_summaries
  pure { query := lastQuery, sources := lastSources, summary := lastSummary,
         refined_summary := lastRefined, detailed_report := detailed_report }

/-- A search collaborator that always succeeds and returns two source
records carrying the same url (a deduplication scenario). -/
def dupUrlCollab : Collaborators where
  tavilyResults := fun _ => Except.ok (some
    [{ title := some "A", url := some "https://a.example", content := some "alpha" },
     { title := some "B", url := some "https://a.example", content := some "beta" }])
  llm := fun _ => "summary text"

/-- A search collaborator that fails on every attempt. -/
def failingSearchCollab : Collaborators where
  tavilyResults := fun _ => Except.error (PyError.other "search failure")
  llm := fun _ => "summary text"

/-- A search collaborator that succeeds on every attempt with zero
results. -/
def emptySearchCollab : Collaborators where
  tavilyResults := fun _ => Except.ok (some [])
  llm := fun _ => "summary text"

/-- Sanity check of the embedding: each global name that a function body of
main.py references without the module ever binding it is indeed absent from
the module names and the builtins, so useGlobal models each such use as a
NameError. -/
theorem unbound_names_check :
    ("generate_query" ∉ mainModuleNames ∧ "generate_query" ∉ pythonBuiltins) ∧
    ("summarize_sources" ∉ mainModuleNames ∧ "summarize_sources" ∉ pythonBuiltins) ∧
    ("reflect_on_summary" ∉ mainModuleNames ∧ "reflect_on_summary" ∉ pythonBuiltins) ∧
    ("finalize_summary" ∉ mainModuleNames ∧ "finalize_summary" ∉ pythonBuiltins) ∧
    ("combined_summaries" ∉ mainModuleNames ∧ "combined_summaries" ∉ pythonBuiltins) ∧
    ("stream" ∉ mainModuleNames ∧ "stream" ∉ pythonBuiltins) ∧
    ("st" ∉ mainModuleNames ∧ "st" ∉ pythonBuiltins) := by
  decide

/-- Claim C9: for every topic (and every behaviour of the external
collaborators), calling deep_research raises a NameError on the name
generate_query before performing any search: the run errors and its
external-call trace is empty.  The module defines generate_initial_query
and generate_refinement_query, but the comprehension at main.py line 155
calls generate_query, which is bound nowhere, so no research run can
complete. -/
theorem deep_research_unbound_generate_query :
    ∀ (C : Collaborators) (topic : String),
      runPy (deep_research C topic) =
        (Except.error (PyError.nameError "generate_query"), []) :=
  fun _ _ => rfl

/-- Claim C10: for every list of sources, domain and metrics,
summarize_results never returns a summary: after constructing the digest
(a pure computation), building the LLM request reads the unbound name
combined_summaries, so every call fails with a NameError and makes no
external call at all (in particular the loop over the unbound name stream
is never reached). -/
theorem summarize_results_unbound_combined_summaries :
    ∀ (C : Collaborators) (sources : List PySource) (domain : String)
      (metrics : Option (List String)),
      runPy (summarize_results C sources domain metrics) =
        (Except.error (PyError.nameError "combined_summaries"), []) :=
  fun _ _ _ _ => rfl

/-- Claim C7: the gap-list parser of identify_knowledge_gaps, applied to the
LLM response text consisting of the lines hyphen-space Gap one,
hyphen-space Gap two, a blank line, and hyphen-space Gap three, returns
exactly the three entries Gap one, Gap two, Gap three (the blank line is
dropped and bullet markers and surrounding whitespace are stripped); in
general the parser returns one entry per line whose strip() is non-empty,
with no validation of the line count; and identify_knowledge_gaps applies
exactly this parser to the raw LLM response text. -/
theorem identify_knowledge_gaps_parsing :
    parseGapLines "- Gap one\n- Gap two\n\n- Gap three" =
      ["Gap one", "Gap two", "Gap three"] ∧
    (∀ t : String, (parseGapLines t).length =
      ((pySplitLines t).filter (fun l => pyStrip l ≠ "")).length) ∧
    (∀ (C : Collaborators) (d s : String),
      runPy (identify_knowledge_gaps C d s) =
        (Except.ok (parseGapLines (C.llm (gapsPrompt d s))),
         [Event.openaiCall (gapsPrompt d s)])) := by
  refine ⟨by decide, ?_, ?_⟩
  · intro t
    simp [parseGapLines]
  · intro C d s
    rfl

/-- Claim C8: for every list of source records, the digest built by
summarize_results is the blank-line join of one entry per enumerated
source; each entry carries the content of its source sliced to at most
2000 characters; and a record missing all of title, url and content still
yields a well-formed entry with the default placeholders Untitled, No URL
and No content instead of failing. -/
theorem summarize_results_digest_bounds :
    (∀ sources : List PySource,
      combinedText sources =
        String.intercalate "\n\n"
          (sources.enum.map (fun p => sourceEntry p.1 p.2))) ∧
    (∀ s : PySource,
      (pyTake (s.content.getD "No content") 2000).length ≤ 2000) ∧
    sourceEntry 0 { title := none, url := none, content := none } =
      "Source 1: Untitled\nURL: No URL\nContent: No content..." :=
  ⟨fun _ => rfl, fun _ => List.length_take_le _ _, rfl⟩

/-- Claim C1, evaluated on the code at a failing input: even with a search
collaborator that returns two records with the same url, deep_research
builds no accumulated source collection at all — the run raises a NameError
on generate_query with an empty external-call trace, so nothing is returned
to the caller, and in particular no deduplicated all_sources (the dict
literal of main.py lines 183-189 has no all_sources key either). -/
theorem deep_research_no_all_sources :
    runPy (deep_research dupUrlCollab "electric vehicle charging infrastructure") =
      (Except.error (PyError.nameError "generate_query"), []) :=
  rfl

/-- Claim C2, evaluated on the code at a failing input: with a search
collaborator that fails on every attempt, deep_research performs zero
search attempts and zero sleeps (its trace is empty) instead of
MAX_RETRIES delayed attempts: the sole search call site, main.py line 164,
is a single unguarded call, is unreachable behind the NameError on
generate_query, and no code in the module reads MAX_RETRIES ( = 3) or
DELAY_BETWEEN_REQUESTS ( = 2). -/
theorem deep_research_no_search_retry :
    runPy (deep_research failingSearchCollab "quantum computing market") =
      (Except.error (PyError.nameError "generate_query"), []) ∧
    MAX_RETRIES = 3 ∧ DELAY_BETWEEN_REQUESTS = 2 :=
  ⟨rfl, rfl, rfl⟩

/-- Claim C3, evaluated on the code at a failing input: with a search
collaborator that succeeds with zero sources, the first iteration never
reports a client error — deep_research fails with the NameError on
generate_query before any search, and main.py contains no zero-source
check at all (HTTPException is imported at line 1 and never raised). -/
theorem deep_research_first_iteration_empty_unchecked :
    runPy (deep_research emptySearchCollab "fintech startups") =
      (Except.error (PyError.nameError "generate_query"), []) :=
  rfl

/-- Claim C4, evaluated on the code at a failing input: in the scenario of
an empty search result after the first iteration, deep_research performs no
early loop exit — the loop of main.py lines 157-177 contains no emptiness
test nor break statement, and the run never reaches it: it fails with the
NameError on generate_query before any iteration. -/
theorem deep_research_no_early_loop_exit :
    runPy (deep_research emptySearchCollab "biotech funding") =
      (Except.error (PyError.nameError "generate_query"), []) :=
  rfl

/-- Claim C5, evaluated on the code at a failing input: no run of
deep_research ever produces a list of iteration records — every run fails
with the NameError on generate_query, and the dict literal of main.py lines
183-189 has no iterations key in any case (MAX_ITERATIONS is never read;
the loop bound is the hard-coded range(3) of line 155). -/
theorem deep_research_no_iteration_records :
    ∀ (C : Collaborators),
      runPy (deep_research C "agritech supply chains") =
        (Except.error (PyError.nameError "generate_query"), []) :=
  fun _ => rfl

/-- Claim C6, evaluated on the code at a failing input: no run of
deep_research ever reaches a finalization step, and the finalization code
at main.py line 180 would call the unbound name finalize_summary on the
list of per-iteration refined summaries, not the Summarizer
(summarize_results) on the accumulated source set — which the function
never accumulates. -/
theorem deep_research_no_final_summarization :
    ∀ (C : Collaborators),
      runPy (deep_research C "retail analytics platforms") =
        (Except.error (PyError.nameError "generate_query"), []) :=
  fun _ => rfl

end OllamaDeepResearch
